import Mathlib

/-!
# Verification of the vipps-mobilepay-sdk webhook and client core

Shallow embedding of the Go sources of `gkhaavik/vipps-mobilepay-sdk`:

* `pkg/webhooks/handler.go` — webhook signature validation (Scheme B,
  canonical-string HMAC-SHA256), event parsing, the HTTP endpoint, and the
  event router;
* the client core (`client.go`, present as `src/unnamed/part_002`) — token
  lifecycle (`IsTokenValid`, `GetAccessToken`, `EnsureValidToken`) and
  `DoRequest` header construction and error classification.

Machine integers are modelled as `Nat` with explicit `% 2^32` where the Go
code works on `uint32` (inside SHA-256).  Go byte slices are `List Nat`
(each element `< 256`).  Go `time.Time` is an abstract integer instant in
nanoseconds (`time.Duration`'s unit); `time.Now()` becomes an explicit
`now : Int` parameter, and the `int64` wrap of Go duration arithmetic is
modelled explicitly (`wrapInt64`).
External library calls (`encoding/json` unmarshalling) are modelled as
oracle inputs: the decoded value (or `none` on decode failure) is part of
the modelled response, exactly matching how the Go code branches on the
unmarshal result.  `crypto/sha256`, `crypto/hmac` and `encoding/base64`
are implemented concretely below (FIPS 180-4, RFC 2104, RFC 4648), as the
Go standard library implements them.
-/

namespace VippsSDK

/-! ## Bytes and UTF-8

Go strings are UTF-8 byte sequences; `[]byte(s)` yields the UTF-8 bytes.
-/

/-- UTF-8 encoding of a single character, as byte values. -/
def utf8Bytes (c : Char) : List Nat :=
  let n := c.toNat
  if n < 0x80 then [n]
  else if n < 0x800 then
    [0xC0 ||| (n >>> 6), 0x80 ||| (n &&& 0x3F)]
  else if n < 0x10000 then
    [0xE0 ||| (n >>> 12), 0x80 ||| ((n >>> 6) &&& 0x3F), 0x80 ||| (n &&& 0x3F)]
  else
    [0xF0 ||| (n >>> 18), 0x80 ||| ((n >>> 12) &&& 0x3F),
     0x80 ||| ((n >>> 6) &&& 0x3F), 0x80 ||| (n &&& 0x3F)]

/-- The UTF-8 bytes of a string: Go's `[]byte(s)`. -/
def strBytes (s : String) : List Nat :=
  s.data.flatMap utf8Bytes

/-! ## SHA-256 (FIPS 180-4), as implemented by Go's `crypto/sha256` -/

/-- Truncation to a 32-bit word. -/
def w32 (n : Nat) : Nat := n % 4294967296

/-- Right rotation of a 32-bit word. -/
def rotr32 (n x : Nat) : Nat := w32 ((x >>> n) ||| (x <<< (32 - n)))

/-- SHA-256 `Ch` function. -/
def sha2Ch (x y z : Nat) : Nat := (x &&& y) ^^^ ((x ^^^ 0xFFFFFFFF) &&& z)

/-- SHA-256 `Maj` function. -/
def sha2Maj (x y z : Nat) : Nat := (x &&& y) ^^^ (x &&& z) ^^^ (y &&& z)

/-- SHA-256 big sigma 0. -/
def bsig0 (x : Nat) : Nat := rotr32 2 x ^^^ rotr32 13 x ^^^ rotr32 22 x

/-- SHA-256 big sigma 1. -/
def bsig1 (x : Nat) : Nat := rotr32 6 x ^^^ rotr32 11 x ^^^ rotr32 25 x

/-- SHA-256 small sigma 0. -/
def ssig0 (x : Nat) : Nat := rotr32 7 x ^^^ rotr32 18 x ^^^ (x >>> 3)

/-- SHA-256 small sigma 1. -/
def ssig1 (x : Nat) : Nat := rotr32 17 x ^^^ rotr32 19 x ^^^ (x >>> 10)

/-- The 64 SHA-256 round constants of FIPS 180-4 (decimal). -/
def k256 : List Nat :=
  [1116352408, 1899447441, 3049323471, 3921009573, 961987163, 1508970993,
   2453635748, 2870763221, 3624381080, 310598401, 607225278, 1426881987,
   1925078388, 2162078206, 2614888103, 3248222580, 3835390401, 4022224774,
   264347078, 604807628, 770255983, 1249150122, 1555081692, 1996064986,
   2554220882, 2821834349, 2952996808, 3210313671, 3336571891, 3584528711,
   113926993, 338241895, 666307205, 773529912, 1294757372, 1396182291,
   1695183700, 1986661051, 2177026350, 2456956037, 2730485921, 2820302411,
   3259730800, 3345764771, 3516065817, 3600352804, 4094571909, 275423344,
   430227734, 506948616, 659060556, 883997877, 958139571, 1322822218,
   1537002063, 1747873779, 1955562222, 2024104815, 2227730452, 2361852424,
   2428436474, 2756734187, 3204031479, 3329325298]

/-- The big-endian 8-byte encoding of a (length) value. -/
def toBytes8BE (n : Nat) : List Nat :=
  [(n >>> 56) % 256, (n >>> 48) % 256, (n >>> 40) % 256, (n >>> 32) % 256,
   (n >>> 24) % 256, (n >>> 16) % 256, (n >>> 8) % 256, n % 256]

/-- SHA-256 padding: append `0x80`, zero bytes until the length is 56 mod
64, then the 8-byte big-endian bit length; `(119 - len % 64) % 64` zero
bytes satisfy `(len + 1 + k) % 64 = 56` without natural-number
truncation for any residue of `len`. -/
def padMessage (msg : List Nat) : List Nat :=
  let len := msg.length
  let padZeros := (119 - len % 64) % 64
  msg ++ [0x80] ++ List.replicate padZeros 0 ++ toBytes8BE (len * 8)

/-- Group bytes into big-endian 32-bit words. -/
def bytesToWords : List Nat → List Nat
  | a :: b :: c :: d :: rest =>
      (((a * 256 + b) * 256 + c) * 256 + d) :: bytesToWords rest
  | _ => []

/-- Split a word list into 16-word blocks (fuel-driven recursion). -/
def toBlocksAux : Nat → List Nat → List (List Nat)
  | 0, _ => []
  | _, [] => []
  | fuel + 1, ws => ws.take 16 :: toBlocksAux fuel (ws.drop 16)

/-- Split a word list into 16-word blocks. -/
def toBlocks (ws : List Nat) : List (List Nat) := toBlocksAux ws.length ws

/-- Next message-schedule word from the schedule built so far. -/
def scheduleNext (w : List Nat) : Nat :=
  let t := w.length
  w32 (ssig1 (w.getD (t - 2) 0) + w.getD (t - 7) 0 +
       ssig0 (w.getD (t - 15) 0) + w.getD (t - 16) 0)

/-- Extend the message schedule by `n` words. -/
def extendSchedule : Nat → List Nat → List Nat
  | 0, w => w
  | n + 1, w => extendSchedule n (w ++ [scheduleNext w])

/-- The 64-word message schedule of a 16-word block. -/
def schedule (block : List Nat) : List Nat := extendSchedule 48 block

/-- The eight 32-bit working variables of the SHA-256 compression function. -/
structure Sha2State where
  a : Nat
  b : Nat
  c : Nat
  d : Nat
  e : Nat
  f : Nat
  g : Nat
  h : Nat
deriving Repr, DecidableEq

/-- The SHA-256 initial hash value of FIPS 180-4 (decimal). -/
def sha2Init : Sha2State :=
  ⟨1779033703, 3144134277, 1013904242, 2773480762,
   1359893119, 2600822924, 528734635, 1541459225⟩

/-- One SHA-256 round. -/
def sha2Round (s : Sha2State) (kt wt : Nat) : Sha2State :=
  let t1 := w32 (s.h + bsig1 s.e + sha2Ch s.e s.f s.g + kt + wt)
  let t2 := w32 (bsig0 s.a + sha2Maj s.a s.b s.c)
  ⟨w32 (t1 + t2), s.a, s.b, s.c, w32 (s.d + t1), s.e, s.f, s.g⟩

/-- SHA-256 compression of one 16-word block. -/
def compressBlock (s : Sha2State) (block : List Nat) : Sha2State :=
  let ws := schedule block
  let t := (List.zip k256 ws).foldl (fun st p => sha2Round st p.1 p.2) s
  ⟨w32 (s.a + t.a), w32 (s.b + t.b), w32 (s.c + t.c), w32 (s.d + t.d),
   w32 (s.e + t.e), w32 (s.f + t.f), w32 (s.g + t.g), w32 (s.h + t.h)⟩

/-- The big-endian 4-byte encoding of a 32-bit word. -/
def wordBytes (x : Nat) : List Nat :=
  [(x >>> 24) % 256, (x >>> 16) % 256, (x >>> 8) % 256, x % 256]

/-- SHA-256 of a byte sequence, as a 32-byte digest. -/
def sha256Bytes (msg : List Nat) : List Nat :=
  let s := (toBlocks (bytesToWords (padMessage msg))).foldl compressBlock sha2Init
  wordBytes s.a ++ wordBytes s.b ++ wordBytes s.c ++ wordBytes s.d ++
  wordBytes s.e ++ wordBytes s.f ++ wordBytes s.g ++ wordBytes s.h

/-! ## HMAC-SHA256 (RFC 2104), as Go's `crypto/hmac` with `sha256.New` -/

/-- HMAC-SHA256 keyed digest of a message. -/
def hmacSha256 (key msg : List Nat) : List Nat :=
  let k0 := if 64 < key.length then sha256Bytes key else key
  let kp := k0 ++ List.replicate (64 - k0.length) 0
  let ipad := kp.map (fun b => b ^^^ 0x36)
  let opad := kp.map (fun b => b ^^^ 0x5C)
  sha256Bytes (opad ++ sha256Bytes (ipad ++ msg))

/-! ## Base64 (RFC 4648 standard alphabet), Go's `base64.StdEncoding` -/

/-- The standard base64 alphabet. -/
def base64Table : List Char :=
  "ABCDEFGHIJKLMNOPQRSTUVWXYZabcdefghijklmnopqrstuvwxyz0123456789+/".data

/-- The base64 character for a 6-bit value. -/
def b64Char (n : Nat) : Char := base64Table.getD n 'A'

/-- Encode bytes in groups of three, padding with `=`. -/
def b64Chunks : List Nat → List Char
  | b1 :: b2 :: b3 :: rest =>
      b64Char (b1 >>> 2) ::
      b64Char (((b1 &&& 0x3) <<< 4) ||| (b2 >>> 4)) ::
      b64Char (((b2 &&& 0xF) <<< 2) ||| (b3 >>> 6)) ::
      b64Char (b3 &&& 0x3F) :: b64Chunks rest
  | [b1, b2] =>
      [b64Char (b1 >>> 2), b64Char (((b1 &&& 0x3) <<< 4) ||| (b2 >>> 4)),
       b64Char (((b2 &&& 0xF) <<< 2)), '=']
  | [b1] =>
      [b64Char (b1 >>> 2), b64Char (((b1 &&& 0x3) <<< 4)), '=', '=']
  | [] => []

/-- Standard base64 encoding of a byte sequence. -/
def base64Encode (l : List Nat) : String := String.mk (b64Chunks l)

end VippsSDK

namespace VippsSDK

/-- Known-answer test: SHA-256 of the empty message (FIPS 180-4 vector,
digest bytes in decimal). -/
theorem sha256_empty_vector :
    sha256Bytes [] =
      [227, 176, 196, 66, 152, 252, 28, 20,
       154, 251, 244, 200, 153, 111, 185, 36,
       39, 174, 65, 228, 100, 155, 147, 76,
       164, 149, 153, 27, 120, 82, 184, 85] := by decide

/-- Known-answer test: SHA-256 of `"abc"` (FIPS 180-4 vector, digest bytes
in decimal). -/
theorem sha256_abc_vector :
    sha256Bytes (strBytes "abc") =
      [186, 120, 22, 191, 143, 1, 207, 234,
       65, 65, 64, 222, 93, 174, 34, 35,
       176, 3, 97, 163, 150, 23, 122, 156,
       180, 16, 255, 97, 242, 0, 21, 173] := by decide

set_option maxRecDepth 16384 in
/-- Known-answer test: SHA-256 of the 56-byte two-block FIPS 180-4 message
`"abcdbcde...nopq"` — the length residue (56 mod 64) that forces a second
padding block (digest bytes in decimal). -/
theorem sha256_two_block_vector :
    sha256Bytes (strBytes "abcdbcdecdefdefgefghfghighijhijkijkljklmklmnlmnomnopnopq") =
      [36, 141, 106, 97, 210, 6, 56, 184,
       229, 192, 38, 147, 12, 62, 96, 57,
       163, 60, 228, 89, 100, 255, 33, 103,
       246, 236, 237, 212, 25, 219, 6, 193] := by decide

set_option maxRecDepth 16384 in
/-- Known-answer test: HMAC-SHA256 with key `"Jefe"` of
`"what do ya want for nothing?"` (RFC 4231 test case 2, bytes in
decimal). -/
theorem hmacSha256_jefe_vector :
    hmacSha256 (strBytes "Jefe") (strBytes "what do ya want for nothing?") =
      [91, 220, 193, 70, 191, 96, 117, 78,
       106, 4, 36, 38, 8, 149, 117, 199,
       90, 0, 63, 8, 157, 39, 57, 131,
       157, 236, 88, 185, 100, 236, 56, 67] := by decide

/-- Known-answer test: base64 of `"abc"` is `"YWJj"` (RFC 4648). -/
theorem base64_abc_vector : base64Encode (strBytes "abc") = "YWJj" := by decide

/-! ## Data model (`pkg/models`)

`models.Amount` and `models.WebhookEvent` (the latter is mirrored verbatim
in `examples/payment/main.go` and §3 of the design).  Go `int` is `Int`,
`time.Time` an integer instant.  `models.PaymentEventName` is a string type.
-/

/-- `models.PaymentEventName`: a string-typed event name. -/
abbrev PaymentEventName := String

/-- `models.Amount`: currency plus minor-unit value. -/
structure Amount where
  Currency : String
  Value : Int
deriving Repr, DecidableEq

/-- `models.WebhookEvent`: the decoded webhook payload. -/
structure WebhookEvent where
  MSN : String
  Reference : String
  PSPReference : String
  Name : PaymentEventName
  amount : Amount
  Timestamp : Int
  IdempotencyKey : String
  Success : Bool
deriving Repr, DecidableEq

/-! ## Webhook handler (`pkg/webhooks/handler.go`)

An inbound `*http.Request` is modelled by its method, URL path, header
table and raw body.  `r.Header.Get name` returns the header value or `""`
when absent, so the header table is a total function to `String` with `""`
meaning "absent", exactly the representation the Go code branches on.
Reading the body cannot fail in the model (`io.ReadAll` errors are a
transport condition outside the repository's code), and the source restores
the body after reading it, so verification is non-destructive by
construction here.
-/

/-- An inbound HTTP request as seen by the webhook handler. -/
structure HttpRequest where
  method : String
  path : String
  headers : String → String
  body : String

/-- `webhooks.Handler`: holds the configured secret key. -/
structure Handler where
  SecretKey : String

/-- `webhooks.NewHandler`. -/
def NewHandler (secretKey : String) : Handler := ⟨secretKey⟩

/-- The canonical string to be signed (handler.go line 72):
`METHOD "\n" PATH "\n" DATE ";" HOST ";" CONTENT_HASH`. -/
def canonicalString (method path date host contentHash : String) : String :=
  method ++ "\n" ++ path ++ "\n" ++ date ++ ";" ++ host ++ ";" ++ contentHash

/-- The authorization header the verifier expects (handler.go lines 80-86):
base64 of the HMAC-SHA256 of the canonical string under the secret,
formatted with the fixed `SignedHeaders` prefix. -/
def expectedAuthHeaderFor (secret method path date host contentHash : String) : String :=
  "HMAC-SHA256 SignedHeaders=x-ms-date;host;x-ms-content-sha256&Signature=" ++
    base64Encode (hmacSha256 (strBytes secret)
      (strBytes (canonicalString method path date host contentHash)))

/-- The authorization header of a request: `Authorization`, falling back to
`X-Vipps-Authorization` (handler.go lines 57-63). -/
def requestAuthHeader (r : HttpRequest) : String :=
  if r.headers "Authorization" = "" then r.headers "X-Vipps-Authorization"
  else r.headers "Authorization"

/-- The host used for signing: `X-Forwarded-Host`, falling back to the
`Host` header (handler.go lines 66-69). -/
def requestHost (r : HttpRequest) : String :=
  if r.headers "X-Forwarded-Host" = "" then r.headers "Host"
  else r.headers "X-Forwarded-Host"

/-- `Handler.ValidateSignature` (handler.go lines 30-97).  The source also
computes the SHA-256 of the body and compares it to the declared
`X-Ms-Content-Sha256` value, but on mismatch it only logs and continues
(lines 50-54), so that comparison does not influence the result. -/
def Handler.ValidateSignature (h : Handler) (r : HttpRequest) : Except String Unit :=
  let expectedContentHash := base64Encode (sha256Bytes (strBytes r.body))
  let actualContentHash := r.headers "X-Ms-Content-Sha256"
  if actualContentHash = "" then
    Except.error "missing X-Ms-Content-Sha256 header"
  else
    -- a mismatch of expectedContentHash with actualContentHash is only logged
    let authHeader := requestAuthHeader r
    if authHeader = "" then
      Except.error "missing Authorization or X-Vipps-Authorization header"
    else
      let expectedAuthHeader := expectedAuthHeaderFor h.SecretKey r.method r.path
        (r.headers "X-Ms-Date") (requestHost r) actualContentHash
      if expectedAuthHeader ≠ authHeader then
        Except.error "signature validation failed"
      else
        Except.ok ()

/-- `Handler.ParseEvent` (handler.go lines 100-121).  `json.Unmarshal` into
`models.WebhookEvent` is external; its outcome is the oracle `decode`. -/
def Handler.ParseEvent (h : Handler) (decode : String → Option WebhookEvent)
    (r : HttpRequest) : Except String WebhookEvent :=
  let sigCheck : Except String Unit :=
    if h.SecretKey ≠ "" then h.ValidateSignature r else Except.ok ()
  match sigCheck with
  | Except.error e => Except.error ("signature validation failed: " ++ e)
  | Except.ok _ =>
      match decode r.body with
      | none => Except.error "failed to parse event"
      | some event => Except.ok event

/-- `Handler.HandleHTTP` (handler.go lines 124-153).  The result is the HTTP
status written to the response together with the list of events the
supplied handler function was invoked on (the instrumentation records
invocations; the Go handler returns `error`, modelled as `Option String`
with `none` for `nil`). -/
def Handler.HandleHTTP (h : Handler) (decode : String → Option WebhookEvent)
    (handler : WebhookEvent → Option String) (r : HttpRequest) :
    Nat × List WebhookEvent :=
  if r.method ≠ "POST" then
    (405, [])
  else
    match h.ParseEvent decode r with
    | Except.error _ => (400, [])
    | Except.ok event =>
        match handler event with
        | some _ => (500, [event])
        | none => (200, [event])

/-! ## Event router (`pkg/webhooks/handler.go` lines 155-199)

`Router.handlers` is a Go map from event name to handler; modelled as a
total function into `Option`.  `EventProcessor` returns a Go `error`,
modelled as `Option String` (`none` = `nil`).
-/

/-- `webhooks.EventProcessor`. -/
abbrev EventProcessor := WebhookEvent → Option String

/-- `webhooks.Router`. -/
structure Router where
  handlers : PaymentEventName → Option EventProcessor
  fallback : Option EventProcessor

/-- `webhooks.NewRouter`: empty handler map, no fallback. -/
def NewRouter : Router := ⟨fun _ => none, none⟩

/-- `Router.Handle`: registers a handler for an event name (map insert,
last registration wins). -/
def Router.Handle (rt : Router) (eventName : PaymentEventName)
    (handler : EventProcessor) : Router :=
  { rt with handlers := fun k => if k = eventName then some handler else rt.handlers k }

/-- `Router.HandleDefault`: registers the fallback handler. -/
def Router.HandleDefault (rt : Router) (handler : EventProcessor) : Router :=
  { rt with fallback := some handler }

/-- Which of the three dispatch outcomes `Router.Process` takes. -/
inductive RouteOutcome where
  | matched
  | usedFallback
  | noHandler
deriving Repr, DecidableEq

/-- `Router.Process` (handler.go lines 187-199). -/
def Router.Process (rt : Router) (event : WebhookEvent) : Option String :=
  match rt.handlers event.Name with
  | some handler => handler event
  | none =>
      match rt.fallback with
      | some fb => fb event
      | none => some ("no handler for event type: " ++ event.Name)

/-- The branch `Router.Process` takes, mirroring its match structure. -/
def Router.route (rt : Router) (event : WebhookEvent) : RouteOutcome :=
  match rt.handlers event.Name with
  | some _ => RouteOutcome.matched
  | none =>
      match rt.fallback with
      | some _ => RouteOutcome.usedFallback
      | none => RouteOutcome.noHandler

/-! ## API client (`client.go`, `src/unnamed/part_002` lines 180-414)

`client.Client` minus the embedded `*http.Client` (transport only).  Time
is an integer instant in nanoseconds, matching `time.Duration`'s unit:
`time.Now().Before(t)` is `now < t`, and
`time.Now().Add(time.Duration(n) * time.Second)` is
`now + wrapInt64 (n * 1000000000)` — the Go duration multiplication is
64-bit two's-complement arithmetic, which wraps for
`n ≥ 9223372037` seconds even though `strconv.Atoi` accepts such values.
`strconv.Atoi` is modelled below.  The HTTP exchanges performed by
`GetAccessToken` and `DoRequest` are external; each modelled operation
takes the response it received as input, with JSON-unmarshal outcomes as
oracle fields.
-/

/-- Two's-complement wrap-around of an integer into the `int64` range, as
Go's 64-bit multiplication overflows. -/
def wrapInt64 (x : Int) : Int :=
  (x + 9223372036854775808) % 18446744073709551616 - 9223372036854775808

/-- `client.Client`: credentials, token state and system info. -/
structure Client where
  BaseURL : String
  ClientID : String
  ClientSecret : String
  SubKey : String
  MSN : String
  AccessToken : String
  TokenExpiry : Int
  SystemName : String
  SystemVersion : String
  SystemPluginName : String
  SystemPluginVersion : String
  TestMode : Bool
deriving Repr, DecidableEq

/-- `strconv.Atoi`: optional sign, at least one ASCII digit, nothing else;
errors outside the 64-bit integer range. -/
def goAtoi (s : String) : Option Int :=
  let (neg, ds) :=
    match s.data with
    | '-' :: rest => (true, rest)
    | '+' :: rest => (false, rest)
    | cs => (false, cs)
  if ds.isEmpty then none
  else if ds.all Char.isDigit then
    let v : Nat := ds.foldl (fun acc c => acc * 10 + (c.toNat - 48)) 0
    let i : Int := if neg then -(v : Int) else (v : Int)
    if i < -(2 ^ 63) ∨ (2 ^ 63 - 1) < i then none else some i
  else none

/-- The token-endpoint body `{access_token, expires_in, token_type}` as the
Go code declares it (all three fields are strings). -/
structure TokenResponseBody where
  access_token : String
  expires_in : String
  token_type : String
deriving Repr, DecidableEq

/-- The HTTP response received from `POST /accesstoken/get`: status code,
raw body, and the outcome of JSON-decoding the body into
`TokenResponseBody` (`none` when `json.Decode` fails). -/
structure TokenHttpResponse where
  status : Nat
  rawBody : String
  decoded : Option TokenResponseBody
deriving Repr, DecidableEq

/-- `Client.IsTokenValid` (client.go line 277):
`c.AccessToken != "" && time.Now().Before(c.TokenExpiry)`. -/
def Client.IsTokenValid (c : Client) (now : Int) : Bool :=
  c.AccessToken ≠ "" && now < c.TokenExpiry

/-- `Client.GetAccessToken` (client.go lines 282-331), from the point the
response arrives.  Returns the client state after the call together with
the returned Go error (`none` = `nil`).  Note the source assigns
`c.AccessToken` (line 320) *before* converting `expires_in` (line 323), so
the token field is already overwritten when the conversion fails; and the
expiry is `time.Now().Add(time.Duration(expiresIn) * time.Second)` (line
328), whose duration product wraps in `int64`. -/
def Client.GetAccessToken (c : Client) (now : Int) (resp : TokenHttpResponse) :
    Client × Option String :=
  if resp.status ≠ 200 then
    (c, some ("failed to get access token: status " ++ toString resp.status ++
              ", body: " ++ resp.rawBody))
  else
    match resp.decoded with
    | none => (c, some "failed to decode response")
    | some tokenResp =>
        let c1 := { c with AccessToken := tokenResp.access_token }
        match goAtoi tokenResp.expires_in with
        | none => (c1, some "failed to convert expires_in to int")
        | some expiresIn =>
            ({ c1 with TokenExpiry := now + wrapInt64 (expiresIn * 1000000000) }, none)

/-- `Client.EnsureValidToken` (client.go lines 334-339). -/
def Client.EnsureValidToken (c : Client) (now : Int) (resp : TokenHttpResponse) :
    Client × Option String :=
  if c.IsTokenValid now then (c, none) else c.GetAccessToken now resp

/-- The header list `Client.DoRequest` sets on the outbound request
(client.go lines 363-382), in source order; `http.Header.Set` with
pairwise-distinct names makes this a plain association list. -/
def Client.DoRequestHeaders (c : Client) (idempotencyKey : String) :
    List (String × String) :=
  [("Content-Type", "application/json"),
   ("Authorization", "Bearer " ++ c.AccessToken),
   ("Ocp-Apim-Subscription-Key", c.SubKey),
   ("Merchant-Serial-Number", c.MSN),
   ("Vipps-System-Name", c.SystemName),
   ("Vipps-System-Version", c.SystemVersion)] ++
  (if c.SystemPluginName ≠ "" then
     [("Vipps-System-Plugin-Name", c.SystemPluginName)] else []) ++
  (if c.SystemPluginVersion ≠ "" then
     [("Vipps-System-Plugin-Version", c.SystemPluginVersion)] else []) ++
  (if idempotencyKey ≠ "" then [("Idempotency-Key", idempotencyKey)] else [])

/-- The outbound request `Client.DoRequest` builds (client.go lines
347-382): method, full URL, headers, and the serialized body if present. -/
def Client.DoRequestOutbound (c : Client) (method endpoint : String)
    (body : Option String) (idempotencyKey : String) :
    String × String × List (String × String) × Option String :=
  (method, c.BaseURL ++ endpoint, c.DoRequestHeaders idempotencyKey, body)

/-- The problem payload `{title, detail, status, code}` DoRequest tries to
decode from an error response (client.go lines 397-402). -/
structure ProblemDetails where
  Title : String
  Detail : String
  Status : Int
  Code : String
deriving Repr, DecidableEq

/-- The HTTP response a `DoRequest` call received: status, raw body, and
the outcome of `json.Unmarshal` into the problem payload. -/
structure ApiHttpResponse where
  status : Nat
  body : String
  problemDecoded : Option ProblemDetails
deriving Repr, DecidableEq

/-- The error message for a decodable problem payload (client.go line 405). -/
def apiErrorMessage (p : ProblemDetails) : String :=
  "API error: " ++ p.Title ++ " - " ++ p.Detail ++
  " (Code: " ++ p.Code ++ ", Status: " ++ toString p.Status ++ ")"

/-- The error message for an undecodable error body (client.go line 409). -/
def apiRawErrorMessage (status : Nat) (body : String) : String :=
  "API error: status code " ++ toString status ++ ", body: " ++ body

/-- The response handling of `Client.DoRequest` (client.go lines 390-413):
the `([]byte, int, error)` triple returned to the caller, given the
response that arrived. -/
def Client.DoRequestResult (resp : ApiHttpResponse) :
    String × Nat × Option String :=
  if 400 ≤ resp.status then
    match resp.problemDecoded with
    | some p => (resp.body, resp.status, some (apiErrorMessage p))
    | none => (resp.body, resp.status, some (apiRawErrorMessage resp.status resp.body))
  else
    (resp.body, resp.status, none)

/-! ## Concrete instances used by witnesses and counterexamples -/

/-- A sample decoded webhook event. -/
def wEvent : WebhookEvent :=
  ⟨"123456", "order-1", "psp-1", "AUTHORIZED", ⟨"NOK", 1000⟩, 0, "", true⟩

/-- A POST request carrying no headers at all. -/
def reqNoHeaders : HttpRequest := ⟨"POST", "/webhook", fun _ => "", "payload"⟩

/-- A GET request to the webhook endpoint. -/
def reqGet : HttpRequest := ⟨"GET", "/webhook", fun _ => "", ""⟩

/-- A handler configured with a non-empty secret. -/
def hSecret : Handler := ⟨"webhook-secret"⟩

/-- A handler configured with an empty secret (signature check skipped). -/
def hNoSecret : Handler := ⟨""⟩

/-- A decode oracle that always succeeds with `wEvent`. -/
def decodeAlways : String → Option WebhookEvent := fun _ => some wEvent

/-- An event handler that always succeeds (`nil` error). -/
def procNone : EventProcessor := fun _ => none

/-- A router with a handler registered for `"AUTHORIZED"` only. -/
def router1 : Router := NewRouter.Handle "AUTHORIZED" procNone

/-! ## Claim theorems -/

/-- Claim C1: with a non-empty secret configured, a request whose signature
validation fails — for a missing `X-Ms-Content-Sha256` header, a missing
`Authorization`/`X-Vipps-Authorization` header, or a signature mismatch —
makes `ParseEvent` return an error, and `HandleHTTP` answers with a client
error (405 or 400) without ever invoking the handler function. -/
theorem webhook_never_dispatches_unverified (h : Handler)
    (decode : String → Option WebhookEvent) (handler : WebhookEvent → Option String)
    (r : HttpRequest) (hsec : h.SecretKey ≠ "")
    (hsig : (h.ValidateSignature r).isOk = false) :
    (h.ParseEvent decode r).isOk = false ∧
    400 ≤ (h.HandleHTTP decode handler r).1 ∧
    (h.HandleHTTP decode handler r).1 < 500 ∧
    (h.HandleHTTP decode handler r).2 = [] := by
  have hPE : (h.ParseEvent decode r).isOk = false := by
    unfold Handler.ParseEvent
    cases hv : h.ValidateSignature r with
    | error e => simp [hsec, hv, Except.isOk, Except.toBool]
    | ok u => rw [hv] at hsig; simp [Except.isOk, Except.toBool] at hsig
  refine ⟨hPE, ?_⟩
  unfold Handler.HandleHTTP
  by_cases hm : r.method = "POST"
  · cases hp : h.ParseEvent decode r with
    | error e => simp [hm, hp]
    | ok ev => rw [hp] at hPE; simp [Except.isOk, Except.toBool] at hPE
  · simp [hm]

/-- Witness for C1 at a concrete request: secret configured, no headers
present, so the content-hash header is missing and the request is refused
with a 400 and no handler call. -/
theorem webhook_never_dispatches_unverified_witness :
    (hSecret.ParseEvent decodeAlways reqNoHeaders).isOk = false ∧
    400 ≤ (hSecret.HandleHTTP decodeAlways procNone reqNoHeaders).1 ∧
    (hSecret.HandleHTTP decodeAlways procNone reqNoHeaders).1 < 500 ∧
    (hSecret.HandleHTTP decodeAlways procNone reqNoHeaders).2 = [] :=
  webhook_never_dispatches_unverified hSecret decodeAlways procNone reqNoHeaders
    (by decide) rfl

/-- Claim C3: the accept/reject outcome of `ValidateSignature` does not
depend on the request body: two requests with identical method, path and
headers (hence identical declared content hash) but arbitrary, possibly
different, bodies validate identically — the SHA-256 of the actual body is
only compared for logging. -/
theorem validateSignature_body_independent (h : Handler) (r r' : HttpRequest)
    (hm : r.method = r'.method) (hp : r.path = r'.path)
    (hh : r.headers = r'.headers) :
    h.ValidateSignature r = h.ValidateSignature r' := by
  cases r with
  | mk m p hd b =>
    cases r' with
    | mk m' p' hd' b' =>
      simp only at hm hp hh
      subst hm; subst hp; subst hh
      rfl

/-- Witness for C3: two concrete requests differing only in the body
validate identically. -/
theorem validateSignature_body_independent_witness :
    hSecret.ValidateSignature reqNoHeaders =
      hSecret.ValidateSignature ⟨"POST", "/webhook", fun _ => "", "a different body"⟩ :=
  validateSignature_body_independent hSecret reqNoHeaders
    ⟨"POST", "/webhook", fun _ => "", "a different body"⟩ rfl rfl rfl

/-- Claim C5: `HandleHTTP` answers 405 for non-POST methods (without
further processing), 400 when parsing (signature validation or JSON
decoding) fails, 500 when the invoked handler returns an error, and 200
when the handler succeeds — and these four cases are exhaustive and
mutually exclusive by their hypotheses. -/
theorem handleHTTP_status_cases (h : Handler)
    (decode : String → Option WebhookEvent) (handler : WebhookEvent → Option String)
    (r : HttpRequest) :
    (r.method ≠ "POST" → h.HandleHTTP decode handler r = (405, [])) ∧
    (r.method = "POST" → (h.ParseEvent decode r).isOk = false →
      h.HandleHTTP decode handler r = (400, [])) ∧
    (∀ ev e, r.method = "POST" → h.ParseEvent decode r = Except.ok ev →
      handler ev = some e → h.HandleHTTP decode handler r = (500, [ev])) ∧
    (∀ ev, r.method = "POST" → h.ParseEvent decode r = Except.ok ev →
      handler ev = none → h.HandleHTTP decode handler r = (200, [ev])) := by
  refine ⟨fun hm => ?_, fun hm hpe => ?_, fun ev e hm hpe he => ?_, fun ev hm hpe he => ?_⟩
  · simp [Handler.HandleHTTP, hm]
  · unfold Handler.HandleHTTP
    cases hp : h.ParseEvent decode r with
    | error msg => simp [hm, hp]
    | ok ev => rw [hp] at hpe; simp [Except.isOk, Except.toBool] at hpe
  · simp [Handler.HandleHTTP, hm, hpe, he]
  · simp [Handler.HandleHTTP, hm, hpe, he]

/-- Witness for C5 at concrete requests: a GET is answered 405, and a POST
with empty secret, decodable body and succeeding handler is answered 200
with exactly one handler invocation. -/
theorem handleHTTP_status_cases_witness :
    hNoSecret.HandleHTTP decodeAlways procNone reqGet = (405, []) ∧
    hNoSecret.HandleHTTP decodeAlways procNone reqNoHeaders = (200, [wEvent]) :=
  ⟨(handleHTTP_status_cases hNoSecret decodeAlways procNone reqGet).1 (by decide),
   (handleHTTP_status_cases hNoSecret decodeAlways procNone reqNoHeaders).2.2.2
     wEvent rfl rfl rfl⟩

/-- Claim C6: `Router.Process` is a total function (so it terminates on
every event and router state) and exactly one of three outcomes occurs,
decided by the registration state: a registered handler for the event name
is applied and its result returned unchanged; otherwise a registered
fallback is applied; otherwise the explicit error
`"no handler for event type: <name>"` is returned. -/
theorem router_process_cases (rt : Router) (ev : WebhookEvent) :
    (∀ f, rt.handlers ev.Name = some f →
      rt.route ev = RouteOutcome.matched ∧ rt.Process ev = f ev) ∧
    (∀ g, rt.handlers ev.Name = none → rt.fallback = some g →
      rt.route ev = RouteOutcome.usedFallback ∧ rt.Process ev = g ev) ∧
    (rt.handlers ev.Name = none → rt.fallback = none →
      rt.route ev = RouteOutcome.noHandler ∧
      rt.Process ev = some ("no handler for event type: " ++ ev.Name)) := by
  refine ⟨fun f hf => ?_, fun g hn hg => ?_, fun hn hg => ?_⟩ <;>
    simp [Router.route, Router.Process, *]

/-- Witness for C6 at concrete routers: with a handler registered for
`"AUTHORIZED"` the handler's result is returned; with an empty router the
explicit no-handler error is returned. -/
theorem router_process_cases_witness :
    router1.Process wEvent = none ∧
    NewRouter.Process wEvent = some "no handler for event type: AUTHORIZED" :=
  ⟨((router_process_cases router1 wEvent).1 procNone rfl).2,
   ((router_process_cases NewRouter wEvent).2.2 rfl rfl).2⟩

/-- Claim C7: every response with status at least 400 makes `DoRequest`
fail: if the body decoded as a problem payload the error carries its
title, detail, code and status; otherwise the error carries the status code
and the raw body; and in both cases the raw body and the status code are
returned to the caller alongside the error. -/
theorem doRequest_error_classification (resp : ApiHttpResponse)
    (hs : 400 ≤ resp.status) :
    (Client.DoRequestResult resp).1 = resp.body ∧
    (Client.DoRequestResult resp).2.1 = resp.status ∧
    (Client.DoRequestResult resp).2.2.isSome = true ∧
    (∀ p, resp.problemDecoded = some p →
      (Client.DoRequestResult resp).2.2 = some (apiErrorMessage p)) ∧
    (resp.problemDecoded = none →
      (Client.DoRequestResult resp).2.2 =
        some (apiRawErrorMessage resp.status resp.body)) := by
  unfold Client.DoRequestResult
  cases hp : resp.problemDecoded <;> simp [hs, hp]

/-- A 400 response whose body decodes as a problem payload. -/
def apiResp400 : ApiHttpResponse :=
  ⟨400, "problem-json", some ⟨"Bad Request", "Invalid amount", 400, "invalid-request"⟩⟩

/-- Witness for C7 at a concrete 400 response with a decodable problem
payload. -/
theorem doRequest_error_classification_witness :
    (Client.DoRequestResult apiResp400).1 = apiResp400.body ∧
    (Client.DoRequestResult apiResp400).2.1 = apiResp400.status ∧
    (Client.DoRequestResult apiResp400).2.2.isSome = true ∧
    (∀ p, apiResp400.problemDecoded = some p →
      (Client.DoRequestResult apiResp400).2.2 = some (apiErrorMessage p)) ∧
    (apiResp400.problemDecoded = none →
      (Client.DoRequestResult apiResp400).2.2 =
        some (apiRawErrorMessage apiResp400.status apiResp400.body)) :=
  doRequest_error_classification apiResp400 (by decide)

/-- Claim C9: `DoRequest` attaches an `Idempotency-Key` header exactly when
the caller's idempotency key is non-empty, with the caller's string as the
verbatim value; and the outbound request built from the same client state,
key and body is identical across calls (no client-side deduplication). -/
theorem doRequest_idempotency_key (c : Client) (k : String) :
    (("Idempotency-Key", k) ∈ c.DoRequestHeaders k ↔ k ≠ "") ∧
    (∀ v, ("Idempotency-Key", v) ∈ c.DoRequestHeaders k → v = k) ∧
    (∀ method endpoint body,
      c.DoRequestOutbound method endpoint body k =
        c.DoRequestOutbound method endpoint body k) := by
  unfold Client.DoRequestHeaders
  refine ⟨?_, ?_, fun _ _ _ => rfl⟩
  · by_cases hk : k = "" <;> split_ifs <;> simp_all
  · intro v hv
    by_cases hk : k = "" <;> split_ifs at hv <;> simp_all

/-- A concrete client with a fresh (empty) token state. -/
def freshClient : Client :=
  ⟨"https://apitest.vipps.no", "client-id", "client-secret", "sub-key", "654321",
   "", 0, "go-vipps-mobilepay-sdk", "1.0.0", "", "", true⟩

/-- Witness for C9 at a concrete client and key: the header pair is present
for a non-empty key, and any `Idempotency-Key` pair carries that key. -/
theorem doRequest_idempotency_key_witness :
    (("Idempotency-Key", "key-1") ∈ freshClient.DoRequestHeaders "key-1" ↔
      "key-1" ≠ "") ∧
    (∀ v, ("Idempotency-Key", v) ∈ freshClient.DoRequestHeaders "key-1" →
      v = "key-1") :=
  ⟨(doRequest_idempotency_key freshClient "key-1").1,
   (doRequest_idempotency_key freshClient "key-1").2.1⟩

/-- Claim C10: a token response with status other than 200, or a 200
response whose body does not decode, makes `GetAccessToken` return an error
with both `AccessToken` and `TokenExpiry` exactly as they were — the error
return happens before any mutation on these paths. -/
theorem getAccessToken_failure_preserves_state (c : Client) (now : Int)
    (resp : TokenHttpResponse)
    (hfail : resp.status ≠ 200 ∨ resp.decoded = none) :
    (c.GetAccessToken now resp).1 = c ∧
    (c.GetAccessToken now resp).2.isSome = true := by
  unfold Client.GetAccessToken
  rcases hfail with hs | hd
  · simp [hs]
  · by_cases hs : resp.status = 200
    · simp [hs, hd]
    · simp [hs]

/-- A client holding a previously acquired token. -/
def cexClient : Client :=
  ⟨"https://apitest.vipps.no", "client-id", "client-secret", "sub-key", "654321",
   "old-token", 1000, "go-vipps-mobilepay-sdk", "1.0.0", "", "", true⟩

/-- Witness for C10 at a concrete 401 response: state is untouched and an
error is returned. -/
theorem getAccessToken_failure_preserves_state_witness :
    (cexClient.GetAccessToken 0 ⟨401, "denied", none⟩).1 = cexClient ∧
    (cexClient.GetAccessToken 0 ⟨401, "denied", none⟩).2.isSome = true :=
  getAccessToken_failure_preserves_state cexClient 0 ⟨401, "denied", none⟩
    (Or.inl (by decide))

/-- A 200 token response whose `expires_in` is not an integer string. -/
def respMalformed : TokenHttpResponse :=
  ⟨200, "token-json", some ⟨"new-token", "oops", "Bearer"⟩⟩

/-- Counterexample to claim C4 as stated: at this concrete input —
a stored token `"old-token"`, a 200 response carrying access token
`"new-token"` and malformed `expires_in` `"oops"` — `GetAccessToken`
returns an error yet the stored state is NOT left unchanged: the
`AccessToken` field is already overwritten (source assigns it on line 320,
before the `strconv.Atoi` check on line 323). -/
theorem getAccessToken_malformed_overwrites_token :
    (cexClient.GetAccessToken 0 respMalformed).2.isSome = true ∧
    (cexClient.GetAccessToken 0 respMalformed).1.AccessToken = "new-token" ∧
    (cexClient.GetAccessToken 0 respMalformed).1 ≠ cexClient := by decide

/-- Claim C4 as amended: on a 200 response with malformed `expires_in`,
`GetAccessToken` fails with an error and leaves `TokenExpiry` unchanged,
but `AccessToken` is overwritten with the response's `access_token` value —
a partial overwrite of exactly one of the two fields. -/
theorem getAccessToken_malformed_expiresIn_amended (c : Client) (now : Int)
    (resp : TokenHttpResponse) (t : TokenResponseBody)
    (h200 : resp.status = 200) (hdec : resp.decoded = some t)
    (hatoi : goAtoi t.expires_in = none) :
    (c.GetAccessToken now resp).2.isSome = true ∧
    (c.GetAccessToken now resp).1.TokenExpiry = c.TokenExpiry ∧
    (c.GetAccessToken now resp).1.AccessToken = t.access_token := by
  unfold Client.GetAccessToken
  simp [h200, hdec, hatoi]

/-- Witness for the amended C4 at the concrete malformed response. -/
theorem getAccessToken_malformed_expiresIn_amended_witness :
    (cexClient.GetAccessToken 0 respMalformed).2.isSome = true ∧
    (cexClient.GetAccessToken 0 respMalformed).1.TokenExpiry =
      cexClient.TokenExpiry ∧
    (cexClient.GetAccessToken 0 respMalformed).1.AccessToken = "new-token" :=
  getAccessToken_malformed_expiresIn_amended cexClient 0 respMalformed
    ⟨"new-token", "oops", "Bearer"⟩ rfl rfl (by decide)

/-- A 200 token response with the well-formed integer `expires_in` `"0"`. -/
def respZero : TokenHttpResponse := ⟨200, "token-json", some ⟨"tok", "0", "Bearer"⟩⟩

/-- Counterexample to claim C8 as stated: `"0"` is a well-formed integer
`expires_in`, yet after a successful `EnsureValidToken` at time 5 an
immediate `IsTokenValid` at the same instant is `false`, because validity
requires the current time to be strictly before the stored expiry. -/
theorem ensureValidToken_zero_expiresIn_not_valid :
    (freshClient.EnsureValidToken 5 respZero).2 = none ∧
    ((freshClient.EnsureValidToken 5 respZero).1.IsTokenValid 5) = false := by
  decide

/-- Values within the `int64` range are fixed points of `wrapInt64`. -/
theorem wrapInt64_eq_of_bounds {x : Int} (h1 : -9223372036854775808 ≤ x)
    (h2 : x ≤ 9223372036854775807) : wrapInt64 x = x := by
  unfold wrapInt64
  rw [Int.emod_eq_of_lt (by omega) (by omega)]
  omega

/-- Claim C8 as amended: when the prior token is not valid (so a refresh
occurs) and the mocked 200 response carries a non-empty access token and an
`expires_in` parsing to a positive integer `n` of at most 9223372036 — so
that `n` seconds fits a 64-bit nanosecond duration and the Go duration
product does not wrap — `EnsureValidToken` succeeds, stores expiry =
call time + `n` seconds (`n * 10^9` nanoseconds) and the response's token,
and an immediate `IsTokenValid` is true; in general `IsTokenValid` is true
iff the stored token is non-empty and the current time is strictly before
the stored expiry. -/
theorem ensureValidToken_refresh_spec (c : Client) (now : Int)
    (resp : TokenHttpResponse) (t : TokenResponseBody) (n : Int)
    (hinv : c.IsTokenValid now = false)
    (h200 : resp.status = 200) (hdec : resp.decoded = some t)
    (hatoi : goAtoi t.expires_in = some n)
    (htok : t.access_token ≠ "") (hpos : 0 < n) (hbound : n ≤ 9223372036) :
    (c.EnsureValidToken now resp).2 = none ∧
    (c.EnsureValidToken now resp).1.TokenExpiry = now + n * 1000000000 ∧
    (c.EnsureValidToken now resp).1.AccessToken = t.access_token ∧
    ((c.EnsureValidToken now resp).1.IsTokenValid now) = true ∧
    (∀ (c' : Client) (now' : Int),
      c'.IsTokenValid now' = true ↔ (c'.AccessToken ≠ "" ∧ now' < c'.TokenExpiry)) := by
  have hw : wrapInt64 (n * 1000000000) = n * 1000000000 :=
    wrapInt64_eq_of_bounds (by omega) (by omega)
  have hE : c.EnsureValidToken now resp = c.GetAccessToken now resp := by
    unfold Client.EnsureValidToken; simp [hinv]
  rw [hE]
  unfold Client.GetAccessToken
  simp only [h200, hdec, hatoi]
  refine ⟨by simp, by simp [hw], by simp, ?_, ?_⟩
  · simp [Client.IsTokenValid, htok, hw]
    omega
  · intro c' now'
    simp [Client.IsTokenValid]

/-- A 200 token response with `expires_in` `"3600"`. -/
def respHour : TokenHttpResponse :=
  ⟨200, "token-json", some ⟨"tok", "3600", "Bearer"⟩⟩

/-! ## Scheme-B canonical-string lemmas (claim C2)

The canonical string determines — and is determined by — its five
components when the other four are held fixed: the separators are fixed,
so two canonical strings that agree while exactly one component differs
force equal component lengths, hence equal components.
-/

/-- Changing the method (others fixed) changes the canonical string. -/
theorem canonicalString_inj_method {m m' p d h c : String} (hne : m ≠ m') :
    canonicalString m p d h c ≠ canonicalString m' p d h c := by
  intro heq
  apply hne
  have hd := congrArg String.data heq
  simp only [canonicalString, String.data_append, List.append_assoc] at hd
  exact String.ext (List.append_cancel_right hd)

/-- Changing the path (others fixed) changes the canonical string. -/
theorem canonicalString_inj_path {m p p' d h c : String} (hne : p ≠ p') :
    canonicalString m p d h c ≠ canonicalString m p' d h c := by
  intro heq
  apply hne
  have hd := congrArg String.data heq
  simp only [canonicalString, String.data_append, List.append_assoc] at hd
  have h1 := List.append_cancel_left (List.append_cancel_left hd)
  exact String.ext (List.append_cancel_right h1)

/-- Changing the date header (others fixed) changes the canonical string. -/
theorem canonicalString_inj_date {m p d d' h c : String} (hne : d ≠ d') :
    canonicalString m p d h c ≠ canonicalString m p d' h c := by
  intro heq
  apply hne
  have hd := congrArg String.data heq
  simp only [canonicalString, String.data_append, List.append_assoc] at hd
  have h1 := List.append_cancel_left (List.append_cancel_left
    (List.append_cancel_left (List.append_cancel_left hd)))
  exact String.ext (List.append_cancel_right h1)

/-- Changing the host (others fixed) changes the canonical string. -/
theorem canonicalString_inj_host {m p d h h' c : String} (hne : h ≠ h') :
    canonicalString m p d h c ≠ canonicalString m p d h' c := by
  intro heq
  apply hne
  have hd := congrArg String.data heq
  simp only [canonicalString, String.data_append, List.append_assoc] at hd
  have h1 := List.append_cancel_left (List.append_cancel_left
    (List.append_cancel_left (List.append_cancel_left
      (List.append_cancel_left (List.append_cancel_left hd)))))
  exact String.ext (List.append_cancel_right h1)

/-- Changing the content hash (others fixed) changes the canonical string. -/
theorem canonicalString_inj_contentHash {m p d h c c' : String} (hne : c ≠ c') :
    canonicalString m p d h c ≠ canonicalString m p d h c' := by
  intro heq
  apply hne
  have hd := congrArg String.data heq
  simp only [canonicalString, String.data_append, List.append_assoc] at hd
  have h1 := List.append_cancel_left (List.append_cancel_left
    (List.append_cancel_left (List.append_cancel_left
      (List.append_cancel_left (List.append_cancel_left
        (List.append_cancel_left (List.append_cancel_left hd)))))))
  exact String.ext h1

/-- The expected authorization header is never the empty string (it starts
with the fixed `HMAC-SHA256 SignedHeaders=` prefix). -/
theorem expectedAuthHeaderFor_ne_empty (s m p d h c : String) :
    expectedAuthHeaderFor s m p d h c ≠ "" := by
  intro heq
  have hlen := congrArg String.length heq
  unfold expectedAuthHeaderFor at hlen
  rw [String.length_append] at hlen
  have hp : ("HMAC-SHA256 SignedHeaders=x-ms-date;host;x-ms-content-sha256&Signature=" :
      String).length ≠ 0 := by decide
  have hz : ("" : String).length = 0 := rfl
  rw [hz] at hlen
  omega

/-- Acceptance condition of `ValidateSignature`: it returns `ok` exactly
when the content-hash header is present and the resolved authorization
header equals the expected formatted signature string. -/
theorem validateSignature_ok_iff (h : Handler) (r : HttpRequest) :
    h.ValidateSignature r = Except.ok () ↔
      (r.headers "X-Ms-Content-Sha256" ≠ "" ∧
       requestAuthHeader r =
         expectedAuthHeaderFor h.SecretKey r.method r.path
           (r.headers "X-Ms-Date") (requestHost r)
           (r.headers "X-Ms-Content-Sha256")) := by
  unfold Handler.ValidateSignature
  by_cases h1 : r.headers "X-Ms-Content-Sha256" = ""
  · simp [h1]
  · by_cases h2 : requestAuthHeader r = ""
    · simp only [h1, if_false, h2, if_true, reduceIte]
      constructor
      · intro hc; exact absurd hc (by simp)
      · intro ⟨_, hc⟩
        exact absurd hc.symm
          (h2 ▸ expectedAuthHeaderFor_ne_empty h.SecretKey r.method r.path
            (r.headers "X-Ms-Date") (requestHost r) (r.headers "X-Ms-Content-Sha256"))
    · by_cases h3 : expectedAuthHeaderFor h.SecretKey r.method r.path
          (r.headers "X-Ms-Date") (requestHost r) (r.headers "X-Ms-Content-Sha256") =
          requestAuthHeader r
      · simp [h1, h2, h3, eq_comm]
      · simp [h1, h2, h3]
        intro hc
        exact absurd hc.symm h3

/-- Claim C2 as amended: `ValidateSignature` accepts exactly when the
content-hash header is present and the received (or fallback) authorization
header is byte-for-byte the string
`HMAC-SHA256 SignedHeaders=x-ms-date;host;x-ms-content-sha256&Signature=`
followed by base64 of the HMAC-SHA256 of the canonical string
`METHOD "\n" PATH "\n" DATE ";" HOST ";" CONTENT_HASH` under the secret;
and changing any one of method, path, date, host or content hash (the
others fixed) changes the canonical string being signed.  (The expected
signature string itself cannot always change — see the counterexample
theorem — since HMAC-SHA256 has finitely many outputs.) -/
theorem validateSignature_scheme_b_spec :
    (∀ (h : Handler) (r : HttpRequest),
      h.ValidateSignature r = Except.ok () ↔
        (r.headers "X-Ms-Content-Sha256" ≠ "" ∧
         requestAuthHeader r =
           expectedAuthHeaderFor h.SecretKey r.method r.path
             (r.headers "X-Ms-Date") (requestHost r)
             (r.headers "X-Ms-Content-Sha256"))) ∧
    (∀ m m' p d ho c : String, m ≠ m' →
      canonicalString m p d ho c ≠ canonicalString m' p d ho c) ∧
    (∀ m p p' d ho c : String, p ≠ p' →
      canonicalString m p d ho c ≠ canonicalString m p' d ho c) ∧
    (∀ m p d d' ho c : String, d ≠ d' →
      canonicalString m p d ho c ≠ canonicalString m p d' ho c) ∧
    (∀ m p d ho ho' c : String, ho ≠ ho' →
      canonicalString m p d ho c ≠ canonicalString m p d ho' c) ∧
    (∀ m p d ho c c' : String, c ≠ c' →
      canonicalString m p d ho c ≠ canonicalString m p d ho c') :=
  ⟨validateSignature_ok_iff,
   fun _ _ _ _ _ _ hne => canonicalString_inj_method hne,
   fun _ _ _ _ _ _ hne => canonicalString_inj_path hne,
   fun _ _ _ _ _ _ hne => canonicalString_inj_date hne,
   fun _ _ _ _ _ _ hne => canonicalString_inj_host hne,
   fun _ _ _ _ _ _ hne => canonicalString_inj_contentHash hne⟩

/-- Witness for the amended C2 at concrete strings: two canonical strings
differing only in the date are distinct. -/
theorem validateSignature_scheme_b_spec_witness :
    canonicalString "POST" "/webhook" "Wed, 01 May 2024" "api.example.com" "hashA" ≠
      canonicalString "POST" "/webhook" "Thu, 02 May 2024" "api.example.com" "hashA" :=
  validateSignature_scheme_b_spec.2.2.2.1 "POST" "/webhook" "Wed, 01 May 2024"
    "Thu, 02 May 2024" "api.example.com" "hashA" (by decide)

/-! ## Pigeonhole counterexample for the literal reading of claim C2 -/

/-- Every SHA-256 digest byte is below 256. -/
theorem wordBytes_lt (w : Nat) : ∀ x ∈ wordBytes w, x < 256 := by
  intro x hx
  simp [wordBytes] at hx
  rcases hx with rfl | rfl | rfl | rfl <;> exact Nat.mod_lt _ (by norm_num)

/-- A SHA-256 digest has 32 bytes. -/
theorem sha256Bytes_length (m : List Nat) : (sha256Bytes m).length = 32 := by
  simp [sha256Bytes, wordBytes]

/-- All bytes of a SHA-256 digest are below 256. -/
theorem sha256Bytes_lt (m : List Nat) : ∀ x ∈ sha256Bytes m, x < 256 := by
  intro x hx
  simp only [sha256Bytes, List.mem_append] at hx
  rcases hx with ((((((h | h) | h) | h) | h) | h) | h) | h <;> exact wordBytes_lt _ x h

/-- An HMAC-SHA256 digest has 32 bytes. -/
theorem hmacSha256_length (k m : List Nat) : (hmacSha256 k m).length = 32 := by
  unfold hmacSha256
  exact sha256Bytes_length _

/-- All bytes of an HMAC-SHA256 digest are below 256. -/
theorem hmacSha256_lt (k m : List Nat) : ∀ x ∈ hmacSha256 k m, x < 256 := by
  unfold hmacSha256
  exact sha256Bytes_lt _

/-- `getD` of a list whose elements are below 256 is below 256. -/
theorem getD_lt {l : List Nat} (hl : ∀ x ∈ l, x < 256) :
    ∀ i : Nat, l.getD i 0 < 256 := by
  intro i
  induction l generalizing i with
  | nil => simp [List.getD]
  | cons a t ih =>
    cases i with
    | zero => simpa using hl a (List.mem_cons_self a t)
    | succ j => exact ih (fun x hx => hl x (List.mem_cons_of_mem a hx)) j

/-- An injection of the naturals into date-header strings. -/
def dateOfNat (n : Nat) : String := String.mk (List.replicate n 'a')

/-- Distinct naturals give distinct date strings. -/
theorem dateOfNat_inj : Function.Injective dateOfNat := by
  intro n n' h
  have hd : List.replicate n 'a' = List.replicate n' 'a' := congrArg String.data h
  simpa using congrArg List.length hd

/-- The HMAC digest of the canonical string with date `dateOfNat n`, at
the fixed components used by the counterexample. -/
def cexDigest (n : Nat) : List Nat :=
  hmacSha256 (strBytes "secret")
    (strBytes (canonicalString "POST" "/webhook" (dateOfNat n) "example.com" "hash"))

/-- Counterexample to claim C2 as literally stated: it is NOT the case that
changing one input component (here, the date) always changes the expected
signature string.  There are infinitely many date values but only finitely
many 32-byte digests, so two distinct dates share the same expected
authorization header (pigeonhole; the witness pair exists but is not
computed). -/
theorem expectedAuthHeader_not_injective_in_date :
    ¬ (∀ d d' : String, d ≠ d' →
      expectedAuthHeaderFor "secret" "POST" "/webhook" d "example.com" "hash" ≠
        expectedAuthHeaderFor "secret" "POST" "/webhook" d' "example.com" "hash") := by
  intro H
  have hbound : ∀ n i : Nat, (cexDigest n).getD i 0 < 256 :=
    fun n => getD_lt (hmacSha256_lt _ _)
  obtain ⟨n, n', hne, hEq⟩ := Finite.exists_ne_map_eq_of_infinite
    (fun n (i : Fin 32) => (⟨(cexDigest n).getD i.val 0, hbound n i.val⟩ : Fin 256))
  have hdig : cexDigest n = cexDigest n' := by
    apply List.ext_get (by simp [cexDigest, hmacSha256_length])
    intro i h1 h2
    have h32 : i < 32 := by
      have := h1
      rw [show (cexDigest n).length = 32 from hmacSha256_length _ _] at this
      exact this
    have hv := congrArg Fin.val (congrFun hEq ⟨i, h32⟩)
    simp only at hv
    have e1 : ∀ (l : List Nat) (hil : i < l.length), l.get ⟨i, hil⟩ = l.getD i 0 :=
      fun l hil => by simp [List.getD_eq_getElem?_getD, List.getElem?_eq_getElem hil]
    rw [e1 _ h1, e1 _ h2]
    exact hv
  have hexp : expectedAuthHeaderFor "secret" "POST" "/webhook" (dateOfNat n)
      "example.com" "hash" =
      expectedAuthHeaderFor "secret" "POST" "/webhook" (dateOfNat n')
        "example.com" "hash" := by
    show "HMAC-SHA256 SignedHeaders=x-ms-date;host;x-ms-content-sha256&Signature=" ++
        base64Encode (cexDigest n) =
      "HMAC-SHA256 SignedHeaders=x-ms-date;host;x-ms-content-sha256&Signature=" ++
        base64Encode (cexDigest n')
    rw [hdig]
  exact H _ _ (fun hd => hne (dateOfNat_inj hd)) hexp

/-- Witness for the amended C8: a fresh client refreshed at nanosecond
instant 5 with a 3600-second token is immediately valid, with expiry 3600
seconds past the call instant. -/
theorem ensureValidToken_refresh_spec_witness :
    (freshClient.EnsureValidToken 5 respHour).2 = none ∧
    (freshClient.EnsureValidToken 5 respHour).1.TokenExpiry = 5 + 3600 * 1000000000 ∧
    (freshClient.EnsureValidToken 5 respHour).1.AccessToken = "tok" ∧
    ((freshClient.EnsureValidToken 5 respHour).1.IsTokenValid 5) = true ∧
    (∀ (c' : Client) (now' : Int),
      c'.IsTokenValid now' = true ↔ (c'.AccessToken ≠ "" ∧ now' < c'.TokenExpiry)) :=
  ensureValidToken_refresh_spec freshClient 5 respHour ⟨"tok", "3600", "Bearer"⟩ 3600
    (by decide) rfl rfl (by decide) (by decide) (by decide) (by decide)

end VippsSDK
